import Mathlib

/-!
Verification of the amazon-ecs-cli configuration subsystem.

This file gives a shallow embedding, in Lean, of the configuration-resolution
and task-parameter-normalization code of the repository:

* the yaml config read/writer (`GetConfigs`, `processProfileMap`,
  `processClusterMap`, `SaveProfile`, `SaveCluster`, `SetDefaultProfile`,
  `SetDefaultCluster`, `saveToFile`);
* the ecs-params reader (`HealthCheck.UnmarshalYAML`,
  `parseHealthCheckCommand`, `parseHealthCheckTimeField`, `ReadECSParams`,
  `ConvertToECSNetworkConfiguration`).

Go maps of type map[interface{}]interface{} produced by yaml.v2 unmarshalling
are modelled as association lists of string keys to `Yaml` values; Go type
assertions `.(string)` / `.(map[interface{}]interface{})` are modelled by
`Yaml.asString` / `Yaml.asMap` applied to the (optional) looked-up value, a
missing key giving a nil interface value on which every assertion fails.
File-system effects (stat / read / chmod / write) are modelled by explicit
outcome parameters, since the Go code only branches on their success.
-/

/-- A YAML value as decoded by gopkg.in/yaml.v2 into interface{} values:
strings, integers, nested mappings, or null (also standing for the nil
interface value produced by looking up a missing key). -/
inductive Yaml where
  | null : Yaml
  | str (s : String) : Yaml
  | int (n : Int) : Yaml
  | map (entries : List (String × Yaml)) : Yaml

/-- Lookup in a decoded YAML mapping, modelling Go map indexing (a missing key
yields the nil interface value, here `none`). -/
def alookup : List (String × Yaml) → String → Option Yaml
  | [], _ => none
  | (k, v) :: rest, key => if k = key then some v else alookup rest key

/-- Insertion/overwrite in a decoded YAML mapping, modelling Go map
assignment `m[key] = v`. -/
def ainsert : List (String × Yaml) → String → Yaml → List (String × Yaml)
  | [], key, v => [(key, v)]
  | (k, w) :: rest, key, v =>
      if k = key then (k, v) :: rest else (k, w) :: ainsert rest key v

/-- The Go type assertion `v.(string)`, applied to the result of a map lookup:
succeeds only on a string value (fails on nil, i.e. a missing key). -/
def Yaml.asString : Option Yaml → Option String
  | some (Yaml.str s) => some s
  | _ => none

/-- The Go type assertion `v.(map[interface{}]interface{})`, applied to the
result of a map lookup. -/
def Yaml.asMap : Option Yaml → Option (List (String × Yaml))
  | some (Yaml.map m) => some m
  | _ => none

/-- Modelled from the spec: the CliConfig struct itself is declared in the
config package outside this excerpt. Spec section 3 (ResolvedConfig) lists
cluster identifier, region, credentials and the three naming prefixes, which
are exactly the fields the excerpt populates. Go zero value: all fields are
the empty string. The three prefix fields are ComposeProjectNamePrefix,
ComposeServiceNamePrefix and CFNStackNamePrefix in the source; they are
abbreviated here to `...Pfx`. -/
structure CliConfig where
  cluster : String := ""
  region : String := ""
  awsAccessKey : String := ""
  awsSecretKey : String := ""
  composeProjectNamePfx : String := ""
  composeServiceNamePfx : String := ""
  cfnStackNamePfx : String := ""
deriving DecidableEq, Repr

/-- Modelled from the spec: the key-name constants are declared in the config
package outside this excerpt; their string values are shown by the sample
config in the YamlReadWriter doc comment of the source (cluster, region,
aws_access_key_id, aws_secret_access_key, compose-project-name-prefix,
compose-service-name-prefix, cfn-stack-name-prefix). -/
def awsAccessKeyKey : String := "aws_access_key_id"

def awsSecretKeyKey : String := "aws_secret_access_key"

def clusterKey : String := "cluster"

def regionKey : String := "region"

def composeProjectNamePrefixKey : String := "compose-project-name-prefix"

def composeServiceNamePrefixKey : String := "compose-service-name-prefix"

def cfnStackNamePrefixKey : String := "cfn-stack-name-prefix"

/-- Outcome of a Go computation that may panic: the unguarded type assertions
`profileMap["ecs_profiles"].(map[interface{}]interface{})` and
`clusterMap["clusters"].(map[interface{}]interface{})` in the processors
panic when the value is absent or not a mapping. -/
inductive GoResult (α : Type) where
  | ok (val : α) : GoResult α
  | panicked : GoResult α
deriving Repr

/-- Embedding of processProfileMap (source lines 504-530). The Go function
mutates configMap and cliConfig through pointers and returns an error; here
the updated state is returned together with the (optional) error, so that a
caller that drops the error — as GetConfigs does — still observes the
partial mutations performed before the failure. -/
def processProfileMap (profileKey : String) (profileMap : List (String × Yaml))
    (configMap : List (String × Yaml)) (cliConfig : CliConfig) :
    GoResult (List (String × Yaml) × CliConfig × Option String) :=
  let resolvedKey : Option String :=
    if profileKey = "" then Yaml.asString (alookup profileMap "default")
    else some profileKey
  match resolvedKey with
  | none =>
      GoResult.ok (configMap, cliConfig,
        some "Format issue with profile config file; expected key not found.")
  | some key =>
      match Yaml.asMap (alookup profileMap "ecs_profiles") with
      | none => GoResult.panicked
      | some profiles =>
          match Yaml.asMap (alookup profiles key) with
          | none =>
              GoResult.ok (configMap, cliConfig,
                some "Format issue with profile config file; expected key not found.")
          | some profile =>
              let configMap := ainsert configMap awsAccessKeyKey
                ((alookup profile awsAccessKeyKey).getD Yaml.null)
              let configMap := ainsert configMap awsSecretKeyKey
                ((alookup profile awsSecretKeyKey).getD Yaml.null)
              let (accessVal, ok1) :=
                match Yaml.asString (alookup profile awsAccessKeyKey) with
                | some s => (s, true)
                | none => ("", false)
              let cliConfig := { cliConfig with awsAccessKey := accessVal }
              if ok1 = false then
                GoResult.ok (configMap, cliConfig,
                  some "Format issue with profile config file; expected key not found.")
              else
                let (secretVal, ok2) :=
                  match Yaml.asString (alookup profile awsSecretKeyKey) with
                  | some s => (s, true)
                  | none => ("", false)
                let cliConfig := { cliConfig with awsSecretKey := secretVal }
                if ok2 = false then
                  GoResult.ok (configMap, cliConfig,
                    some "Format issue with profile config file; expected key not found.")
                else
                  GoResult.ok (configMap, cliConfig, none)

/-- One optional prefix block of processClusterMap: if the key is present in
the cluster entry it is copied into configMap, and the string assertion on
its value updates the given CliConfig field (comma-ok: the field gets the
empty string and a format error is reported when the value is not a
string). Returns the updated state and the optional error. -/
def processPrefixField (cluster : List (String × Yaml)) (key : String)
    (errMsg : String) (setField : CliConfig → String → CliConfig)
    (configMap : List (String × Yaml)) (cliConfig : CliConfig) :
    List (String × Yaml) × CliConfig × Option String :=
  match alookup cluster key with
  | none => (configMap, cliConfig, none)
  | some v =>
      let configMap := ainsert configMap key v
      match Yaml.asString (some v) with
      | some s => (configMap, setField cliConfig s, none)
      | none => (configMap, setField cliConfig "", some errMsg)

/-- The three prefix blocks at the end of processClusterMap (source lines
557-581); each block aborts with its error after having performed its
mutations. The third block's error text says "profile cluster file" in the
source, kept verbatim. -/
def processClusterPrefixes (cluster : List (String × Yaml))
    (configMap : List (String × Yaml)) (cliConfig : CliConfig) :
    GoResult (List (String × Yaml) × CliConfig × Option String) :=
  match processPrefixField cluster composeProjectNamePrefixKey
      "Format issue with cluster config file; expected key not found."
      (fun c s => { c with composeProjectNamePfx := s }) configMap cliConfig with
  | (configMap, cliConfig, some e) => GoResult.ok (configMap, cliConfig, some e)
  | (configMap, cliConfig, none) =>
      match processPrefixField cluster composeServiceNamePrefixKey
          "Format issue with cluster config file; expected key not found."
          (fun c s => { c with composeServiceNamePfx := s }) configMap cliConfig with
      | (configMap, cliConfig, some e) => GoResult.ok (configMap, cliConfig, some e)
      | (configMap, cliConfig, none) =>
          match processPrefixField cluster cfnStackNamePrefixKey
              "Format issue with profile cluster file; expected key not found."
              (fun c s => { c with cfnStackNamePfx := s }) configMap cliConfig with
          | (configMap, cliConfig, e) => GoResult.ok (configMap, cliConfig, e)

/-- Embedding of processClusterMap (source lines 532-585): identical
resolution for the cluster document, followed by the three optional
prefix fields, each copied only when its key is present. -/
def processClusterMap (clusterConfigKey : String)
    (clusterMap : List (String × Yaml))
    (configMap : List (String × Yaml)) (cliConfig : CliConfig) :
    GoResult (List (String × Yaml) × CliConfig × Option String) :=
  let resolvedKey : Option String :=
    if clusterConfigKey = "" then Yaml.asString (alookup clusterMap "default")
    else some clusterConfigKey
  match resolvedKey with
  | none =>
      GoResult.ok (configMap, cliConfig,
        some "Format issue with cluster config file; expected key not found.")
  | some key =>
      match Yaml.asMap (alookup clusterMap "clusters") with
      | none => GoResult.panicked
      | some clusters =>
          match Yaml.asMap (alookup clusters key) with
          | none =>
              GoResult.ok (configMap, cliConfig,
                some "Format issue with cluster config file; expected key not found.")
          | some cluster =>
              let configMap := ainsert configMap clusterKey
                ((alookup cluster clusterKey).getD Yaml.null)
              let configMap := ainsert configMap regionKey
                ((alookup cluster regionKey).getD Yaml.null)
              let (clusterVal, ok1) :=
                match Yaml.asString (alookup cluster clusterKey) with
                | some s => (s, true)
                | none => ("", false)
              let cliConfig := { cliConfig with cluster := clusterVal }
              if ok1 = false then
                GoResult.ok (configMap, cliConfig,
                  some "Format issue with cluster config file; expected key not found.")
              else
                let (regionVal, ok2) :=
                  match Yaml.asString (alookup cluster regionKey) with
                  | some s => (s, true)
                  | none => ("", false)
                let cliConfig := { cliConfig with region := regionVal }
                if ok2 = false then
                  GoResult.ok (configMap, cliConfig,
                    some "Format issue with cluster config file; expected key not found.")
                else
                  processClusterPrefixes cluster configMap cliConfig

/-- Embedding of the yaml branch of GetConfigs (source lines 468-501): both
documents have already been read and unmarshalled successfully (read and
unmarshal failures are propagated by the source and are not modelled here).
The return values of processProfileMap and processClusterMap are DISCARDED
(source lines 497-498) and the function returns a nil error. -/
def GetConfigsYaml (clusterConfig profileConfig : String)
    (clusterMap profileMap : List (String × Yaml)) :
    GoResult (CliConfig × List (String × Yaml) × Option String) :=
  let cliConfig : CliConfig := {}
  let configMap : List (String × Yaml) := []
  match processProfileMap profileConfig profileMap configMap cliConfig with
  | GoResult.panicked => GoResult.panicked
  | GoResult.ok (configMap, cliConfig, _profileErr) =>
      match processClusterMap clusterConfig clusterMap configMap cliConfig with
      | GoResult.panicked => GoResult.panicked
      | GoResult.ok (configMap, cliConfig, _clusterErr) =>
          GoResult.ok (cliConfig, configMap, none)

/-- ProfileConfiguration (source lines 393-397). -/
structure ProfileConfiguration where
  profileName : String
  awsAccessKey : String
  awsSecretKey : String

/-- ClusterConfiguration (source lines 401-405). -/
structure ClusterConfiguration where
  clusterName : String
  cluster : String
  region : String

/-- Outcomes of the file-system operations performed by saveToFile: directory
creation, the stat/chmod on an existing config file, and the final whole-file
write. The Go code only branches on whether each operation failed, so each is
modelled as an optional error. -/
structure FileOps where
  mkdirErr : Option String := none
  fileExists : Bool := true
  chmodErr : Option String := none
  writeErr : Option String := none

/-- Embedding of saveToFile (source lines 709-739): MkdirAll, a warning if
the legacy ini file also exists (logging only, not modelled), chmod of an
existing file before overwrite, then the whole-document write. The
yaml.Marshal error is overwritten by the WriteFile error in the source
(`data, err := yaml.Marshal(config); err = ioutil.WriteFile(...)`), so a
marshal failure alone is not observable and is not modelled. Returns the
error the function returns to its caller (none on success). -/
def saveToFile (ops : FileOps) : Option String :=
  match ops.mkdirErr with
  | some e => some e
  | none =>
      if ops.fileExists then
        match ops.chmodErr with
        | some e => some e
        | none => ops.writeErr
      else ops.writeErr

/-- Embedding of SetDefaultProfile (source lines 587-607). `readRes` is the
combined outcome of ioutil.ReadFile + yaml.Unmarshal of the profile document
(both failures are returned to the caller unchanged). The second component of
the result is the document handed to saveToFile — the observable write.
NOTE the source DISCARDS the return value of saveToFile (line 604) and
returns nil. -/
def SetDefaultProfile (readRes : Except String (List (String × Yaml)))
    (ops : FileOps) (profile : String) :
    Except String Unit × Option (List (String × Yaml)) :=
  match readRes with
  | Except.error e => (Except.error e, none)
  | Except.ok profileMap =>
      let profileMap := ainsert profileMap "default" (Yaml.str profile)
      let _ := saveToFile ops
      (Except.ok (), some profileMap)

/-- Embedding of SetDefaultCluster (source lines 609-629); saveToFile's
return value is discarded at line 626. -/
def SetDefaultCluster (readRes : Except String (List (String × Yaml)))
    (ops : FileOps) (cluster : String) :
    Except String Unit × Option (List (String × Yaml)) :=
  match readRes with
  | Except.error e => (Except.error e, none)
  | Except.ok clusterMap =>
      let clusterMap := ainsert clusterMap "default" (Yaml.str cluster)
      let _ := saveToFile ops
      (Except.ok (), some clusterMap)

/-- Embedding of SaveProfile (source lines 631-668): read + unmarshal the
profile document, assert the ecs_profiles mapping (comma-ok, format error on
failure), make the new entry default iff the mapping was empty, insert the
entry (in Go the nested map is mutated in place; here the outer map is
rebuilt with the updated nested map), write the whole document. NOTE the
source DISCARDS the return value of saveToFile (line 664) and returns nil. -/
def SaveProfile (readRes : Except String (List (String × Yaml)))
    (ops : FileOps) (profile : ProfileConfiguration) :
    Except String Unit × Option (List (String × Yaml)) :=
  match readRes with
  | Except.error e => (Except.error e, none)
  | Except.ok profileMap =>
      match Yaml.asMap (alookup profileMap "ecs_profiles") with
      | none =>
          (Except.error "Format issue with profile config file; expected key not found.",
            none)
      | some profiles =>
          let profileMap :=
            if profiles.length = 0 then
              ainsert profileMap "default" (Yaml.str profile.profileName)
            else profileMap
          let newProfile : List (String × Yaml) :=
            [(awsAccessKeyKey, Yaml.str profile.awsAccessKey),
             (awsSecretKeyKey, Yaml.str profile.awsSecretKey)]
          let profiles := ainsert profiles profile.profileName (Yaml.map newProfile)
          let profileMap := ainsert profileMap "ecs_profiles" (Yaml.map profiles)
          let _ := saveToFile ops
          (Except.ok (), some profileMap)

/-- Embedding of SaveCluster (source lines 670-707): the same shape over the
cluster document and its "clusters" mapping. saveToFile's return value is
discarded at line 703. -/
def SaveCluster (readRes : Except String (List (String × Yaml)))
    (ops : FileOps) (cluster : ClusterConfiguration) :
    Except String Unit × Option (List (String × Yaml)) :=
  match readRes with
  | Except.error e => (Except.error e, none)
  | Except.ok clusterMap =>
      match Yaml.asMap (alookup clusterMap "clusters") with
      | none =>
          (Except.error "Format issue with cluster config file; expected key not found.",
            none)
      | some clusters =>
          let clusterMap :=
            if clusters.length = 0 then
              ainsert clusterMap "default" (Yaml.str cluster.clusterName)
            else clusterMap
          let newCluster : List (String × Yaml) :=
            [(clusterKey, Yaml.str cluster.cluster),
             (regionKey, Yaml.str cluster.region)]
          let clusters := ainsert clusters cluster.clusterName (Yaml.map newCluster)
          let clusterMap := ainsert clusterMap "clusters" (Yaml.map clusters)
          let _ := saveToFile ops
          (Except.ok (), some clusterMap)

/-- The YAML shape of a libYaml.Stringorslice field before unmarshalling:
absent, a single scalar string, or a sequence of strings. -/
inductive Stringorslice where
  | absent : Stringorslice
  | single (s : String) : Stringorslice
  | seq (xs : List String) : Stringorslice

/-- Unmarshalling behavior of libYaml.Stringorslice: a single string becomes
a one-element slice, an absent field the empty slice. After this step a
single string and a one-element sequence are indistinguishable. -/
def Stringorslice.toStrings : Stringorslice → List String
  | Stringorslice.absent => []
  | Stringorslice.single s => [s]
  | Stringorslice.seq xs => xs

/-- The healthCheckFormat struct (source lines 70-77) as yaml.v2 leaves it
after unmarshalling. `retries := none` models an absent retries key (the
preset default survives untouched); `some v` models an explicit integer,
which yaml.v2 writes into the field even when it is zero. The time fields
are Go strings whose zero value "" stands for an absent key. -/
structure RawHealthCheck where
  test : Stringorslice := Stringorslice.absent
  command : Stringorslice := Stringorslice.absent
  timeout : String := ""
  interval : String := ""
  retries : Option Int := none
  startPeriod : String := ""

/-- The canonical ecs.HealthCheck (pointer fields modelled as options;
Command nil vs a slice of strings). -/
structure HealthCheck where
  command : Option (List String) := none
  interval : Option Int := none
  retries : Option Int := none
  startPeriod : Option Int := none
  timeout : Option Int := none
deriving DecidableEq, Repr

/-- Embedding of parseHealthCheckCommand (source lines 196-206): a
one-element command/test slice is wrapped as ["CMD-SHELL", elem] (the
source comment: command/test was specified as a string which wraps it in
/bin/sh); anything longer is set verbatim. -/
def parseHealthCheckCommand (command : List String) (healthCheck : HealthCheck) :
    HealthCheck :=
  match command with
  | [c] => { healthCheck with command := some ["CMD-SHELL", c] }
  | _ => { healthCheck with command := some command }

/-- Largest int64 value, used by the Go parsers' overflow checks. -/
def maxInt64N : Nat := 9223372036854775807

/-- True on an ASCII decimal digit. -/
def isDigit (c : Char) : Bool := '0' ≤ c && c ≤ '9'

/-- Go's strconv.ParseInt(s, 10, 64): optional sign, at least one digit, all
characters digits, value within the int64 range; none on any failure. -/
def parseInt64 (s : String) : Option Int :=
  match s.toList with
  | [] => none
  | cs =>
      let signSplit : Bool × List Char :=
        match cs with
        | '+' :: rest => (false, rest)
        | '-' :: rest => (true, rest)
        | other => (false, other)
      let neg := signSplit.1
      let ds := signSplit.2
      if ds = [] then none
      else if ds.all isDigit then
        let n : Nat := ds.foldl (fun acc c => acc * 10 + (c.toNat - '0'.toNat)) 0
        if neg then
          if n ≤ maxInt64N + 1 then some (-(n : Int)) else none
        else
          if n ≤ maxInt64N then some (n : Int) else none
      else none

/-- Go time unit map (time.ParseDuration), values in nanoseconds. -/
def durationUnit (u : String) : Option Nat :=
  if u = "ns" then some 1
  else if u = "us" then some 1000
  else if u = "µs" then some 1000
  else if u = "μs" then some 1000
  else if u = "ms" then some 1000000
  else if u = "s" then some 1000000000
  else if u = "m" then some 60000000000
  else if u = "h" then some 3600000000000
  else none

/-- Go's leadingInt: consume leading digits of a duration, accumulating the
value with an int64 overflow check (none on overflow). Returns the value and
the unconsumed remainder. -/
def leadingInt : List Char → Nat → Option (Nat × List Char)
  | [], x => some (x, [])
  | c :: rest, x =>
      if isDigit c = false then some (x, c :: rest)
      else if x > maxInt64N / 10 then none
      else
        let y := x * 10 + (c.toNat - '0'.toNat)
        if y > maxInt64N then none
        else leadingInt rest y

/-- Go's leadingFraction: consume digits after the decimal point, keeping
value and scale; once the value would overflow int64 further digits are
consumed without changing value or scale. Returns value, scale and the
unconsumed remainder. -/
def leadingFraction : List Char → Nat → Nat → Bool → (Nat × Nat × List Char)
  | [], x, scale, _ => (x, scale, [])
  | c :: rest, x, scale, overflowed =>
      if isDigit c = false then (x, scale, c :: rest)
      else if overflowed then leadingFraction rest x scale true
      else if x > maxInt64N / 10 then leadingFraction rest x scale true
      else
        let y := x * 10 + (c.toNat - '0'.toNat)
        if y > maxInt64N then leadingFraction rest x scale true
        else leadingFraction rest y (scale * 10) false

/-- One pass of time.ParseDuration's main loop over the ([0-9]*(\.[0-9]*)?
unit)+ groups, accumulating nanoseconds with the source's int64 overflow
checks. Where Go uses float64 for the fractional part
(int64(float64(f) * (float64(unit) / scale)), documented in the Go source
as nanosecond accurate), this model uses exact integer arithmetic
f * unit / scale. Fuel is bounded by the remaining length; each iteration
consumes at least one character, so the fuel never runs out when started
with length + 1. -/
def parseDurationLoop : Nat → List Char → Nat → Option Nat
  | 0, _, _ => none
  | fuel + 1, cs, d =>
      match cs with
      | [] => some d
      | c :: _ =>
          if (c = '.' || isDigit c) = false then none
          else
            match leadingInt cs 0 with
            | none => none
            | some (v, cs1) =>
                let pre := decide (cs1.length ≠ cs.length)
                let afterFrac : Nat × Nat × List Char × Bool :=
                  match cs1 with
                  | '.' :: rest =>
                      let r := leadingFraction rest 0 1 false
                      (r.1, r.2.1, r.2.2, decide (r.2.2.length ≠ rest.length))
                  | other => (0, 1, other, false)
                let f := afterFrac.1
                let scale := afterFrac.2.1
                let cs2 := afterFrac.2.2.1
                let post := afterFrac.2.2.2
                if pre = false && post = false then none
                else
                  let unitChars := cs2.takeWhile (fun ch => !(ch = '.' || isDigit ch))
                  let cs3 := cs2.drop unitChars.length
                  if unitChars = [] then none
                  else
                    match durationUnit (String.mk unitChars) with
                    | none => none
                    | some unitVal =>
                        if v > maxInt64N / unitVal then none
                        else
                          let v := v * unitVal
                          let v := if f > 0 then v + f * unitVal / scale else v
                          if v > maxInt64N then none
                          else
                            let d := d + v
                            if d > maxInt64N then none
                            else parseDurationLoop fuel cs3 d

/-- Go's time.ParseDuration: optional sign, the special case "0", then the
group loop; result in nanoseconds, none on any parse error. -/
def parseDuration (s : String) : Option Int :=
  let cs := s.toList
  let signSplit : Bool × List Char :=
    match cs with
    | '-' :: rest => (true, rest)
    | '+' :: rest => (false, rest)
    | other => (false, other)
  let neg := signSplit.1
  let cs1 := signSplit.2
  if cs1 = ['0'] then some 0
  else if cs1 = [] then none
  else
    match parseDurationLoop (cs1.length + 1) cs1 0 with
    | none => none
    | some d => some (if neg then -(d : Int) else (d : Int))

/-- Modelled from the spec: adapter.ConvertToTimeInSeconds is declared in the
compose adapter package outside this excerpt; the spec says duration strings
are interpreted in whole seconds ("1m30s" parses to 90 seconds). Go computes
int64(duration.Seconds()), i.e. nanoseconds divided by 1e9 truncated toward
zero, modelled here by Int.tdiv. -/
def ConvertToTimeInSeconds (d : Int) : Int := Int.tdiv d 1000000000

/-- Embedding of parseHealthCheckTimeField (source lines 209-222): a
non-empty field is first tried as a duration, then as a plain integer
(seconds); an empty field yields an unset value with no error. -/
def parseHealthCheckTimeField (field : String) : Except String (Option Int) :=
  if field ≠ "" then
    match parseDuration field with
    | some duration => Except.ok (some (ConvertToTimeInSeconds duration))
    | none =>
        match parseInt64 field with
        | some val => Except.ok (some val)
        | none =>
            Except.error ("Could not parse " ++ field ++
              " either as an integer or a duration (ex: 1m30s)")
  else Except.ok none

/-- Embedding of HealthCheck.UnmarshalYAML (source lines 145-193): unmarshal
into healthCheckFormat with the preset retries default of 3, reject when
both command and test are non-empty, canonicalize the command, always set
retries, then parse the three time fields in source order (timeout,
start_period, interval), aborting on the first failure. -/
def HealthCheck.unmarshalYAML (raw : RawHealthCheck) : Except String HealthCheck :=
  let cmd := raw.command.toStrings
  let tst := raw.test.toStrings
  if 0 < cmd.length ∧ 0 < tst.length then
    Except.error "healthcheck.test and healthcheck.command can not both be specified"
  else
    let healthCheck : HealthCheck := {}
    let healthCheck := if 0 < cmd.length then parseHealthCheckCommand cmd healthCheck
      else healthCheck
    let healthCheck := if 0 < tst.length then parseHealthCheckCommand tst healthCheck
      else healthCheck
    let healthCheck := { healthCheck with retries := some (raw.retries.getD 3) }
    match parseHealthCheckTimeField raw.timeout with
    | Except.error e => Except.error e
    | Except.ok timeout =>
        let healthCheck := { healthCheck with timeout := timeout }
        match parseHealthCheckTimeField raw.startPeriod with
        | Except.error e => Except.error e
        | Except.ok startPeriod =>
            let healthCheck := { healthCheck with startPeriod := startPeriod }
            match parseHealthCheckTimeField raw.interval with
            | Except.error e => Except.error e
            | Except.ok interval =>
                Except.ok { healthCheck with interval := interval }

/-- TaskSize (source lines 101-104). -/
structure TaskSize where
  cpu : String := ""
  memory : String := ""

/-- ContainerDef (source lines 54-61); Essential defaults to true via the
custom unmarshaler (source lines 132-141). -/
structure ContainerDef where
  essential : Bool := true
  cpu : Int := 0
  memory : Int := 0
  memoryReservation : Int := 0
  healthCheck : HealthCheck := {}

/-- AwsVpcConfiguration (source lines 119-123); AssignPublicIp is a string
type with values "ENABLED" / "DISABLED" / "" when unset. -/
structure AwsVpcConfiguration where
  subnets : List String := []
  securityGroups : List String := []
  assignPublicIp : String := ""

/-- NetworkConfiguration (source lines 113-115). -/
structure NetworkConfiguration where
  awsVpcConfiguration : AwsVpcConfiguration := {}

/-- RunParams (source lines 107-109). -/
structure RunParams where
  networkConfiguration : NetworkConfiguration := {}

/-- EcsTaskDef (source lines 42-48). -/
structure EcsTaskDef where
  networkMode : String := ""
  taskRoleArn : String := ""
  containerDefinitions : List (String × ContainerDef) := []
  executionRole : String := ""
  taskSize : TaskSize := {}

/-- ECSParams (source lines 35-39). -/
structure ECSParams where
  version : String := ""
  taskDefinition : EcsTaskDef := {}
  runParams : RunParams := {}

/-- The ecs.AwsVpcConfiguration handed to the remote API: AssignPublicIp is
a *string, nil when the field was omitted. -/
structure EcsApiAwsVpcConfiguration where
  subnets : List String
  securityGroups : List String
  assignPublicIp : Option String
deriving DecidableEq, Repr

/-- The ecs.NetworkConfiguration handed to the remote API. -/
structure EcsApiNetworkConfiguration where
  awsvpcConfiguration : EcsApiAwsVpcConfiguration
deriving DecidableEq, Repr

/-- Embedding of ConvertToECSNetworkConfiguration (source lines 311-358):
nil params or a network mode other than awsvpc give (nil, nil); under awsvpc
an empty subnet list is a validation error, otherwise the subnet and
security-group lists are copied through in order (aws.String wrapping not
modelled) and assign_public_ip is set only when non-empty in the source. -/
def ConvertToECSNetworkConfiguration (ecsParams : Option ECSParams) :
    Except String (Option EcsApiNetworkConfiguration) :=
  match ecsParams with
  | none => Except.ok none
  | some params =>
      let networkMode := params.taskDefinition.networkMode
      if networkMode ≠ "awsvpc" then Except.ok none
      else
        let awsvpcConfig := params.runParams.networkConfiguration.awsVpcConfiguration
        let subnets := awsvpcConfig.subnets
        if subnets.length < 1 then
          Except.error "at least one subnet is required in the network configuration"
        else
          let securityGroups := awsvpcConfig.securityGroups
          let assignPublicIp := awsvpcConfig.assignPublicIp
          let ecsAwsVpcConfig : EcsApiAwsVpcConfiguration :=
            { subnets := subnets
              securityGroups := securityGroups
              assignPublicIp :=
                if assignPublicIp ≠ "" then some assignPublicIp else none }
          Except.ok (some { awsvpcConfiguration := ecsAwsVpcConfig })

/-- An abstract local file system: file names mapped to raw contents. stat
succeeds exactly on the names present. -/
structure FileSystem where
  files : List (String × String) := []

/-- The os.Stat existence check used by ReadECSParams. -/
def FileSystem.statOk (fs : FileSystem) (name : String) : Bool :=
  (List.lookup name fs.files).isSome

/-- Embedding of ReadECSParams (source lines 283-307). The yaml.v2
unmarshalling of the expanded text into ECSParams and the os.ExpandEnv
substitution are external collaborators, passed in as functions; the
file-selection and error-wrapping logic is the source's. An empty filename
falls back to the fixed default "ecs-params.yml"; when that default does not
stat, the function returns ok-none (no document, no error). -/
def ReadECSParams (parse : String → Except String ECSParams)
    (expandEnv : String → String) (fs : FileSystem) (filename : String) :
    Except String (Option ECSParams) :=
  let chosen : Option String :=
    if filename = "" then
      if fs.statOk "ecs-params.yml" then some "ecs-params.yml" else none
    else some filename
  match chosen with
  | none => Except.ok none
  | some fname =>
      match List.lookup fname fs.files with
      | none => Except.error ("Error reading file " ++ fname)
      | some dat =>
          match parse (expandEnv dat) with
          | Except.error e =>
              Except.error
                ("Error unmarshalling yaml data from ECS params file: " ++ fname ++
                  ": " ++ e)
          | Except.ok ecsParams => Except.ok (some ecsParams)

/-- A profile document whose ecs_profiles mapping is present but which has no
"default" key: resolving it with an empty selector is a structural
mismatch. -/
def c1ProfileDoc : List (String × Yaml) := [("ecs_profiles", Yaml.map [])]

/-- A well-formed cluster document with a default entry. -/
def c1ClusterDoc : List (String × Yaml) :=
  [("default", Yaml.str "c0"),
   ("clusters", Yaml.map [("c0", Yaml.map
      [(clusterKey, Yaml.str "mycluster"), (regionKey, Yaml.str "us-west-2")])])]

/-- File-operation outcomes in which the final whole-document write fails. -/
def c4FailOps : FileOps := { writeErr := some "write failure" }

/-- A minimal well-formed profile document. -/
def c4ProfileDoc : List (String × Yaml) := [("ecs_profiles", Yaml.map [])]

/-- A minimal well-formed cluster document. -/
def c4ClusterDoc : List (String × Yaml) := [("clusters", Yaml.map [])]

/-- A task-parameter document in awsvpc mode with one subnet and two
security groups, the spec's network-extraction example. -/
def c7Demo : ECSParams :=
  { taskDefinition := { networkMode := "awsvpc" },
    runParams := { networkConfiguration := { awsVpcConfiguration :=
      { subnets := ["subnet-1"], securityGroups := ["sg-1", "sg-2"] } } } }

/-! Claim theorems, preceded by the two association-list lemmas they
share. -/

theorem alookup_ainsert_self (m : List (String × Yaml)) (k : String) (v : Yaml) :
    alookup (ainsert m k v) k = some v := by
  induction m with
  | nil => simp [ainsert, alookup]
  | cons hd tl ih =>
      obtain ⟨k0, w⟩ := hd
      by_cases hk : k0 = k
      · simp [ainsert, hk, alookup]
      · simp [ainsert, hk, alookup, ih]

theorem alookup_ainsert_ne (m : List (String × Yaml)) (k k2 : String) (v : Yaml)
    (h : k2 ≠ k) : alookup (ainsert m k v) k2 = alookup m k2 := by
  induction m with
  | nil => simp [ainsert, alookup, Ne.symm h]
  | cons hd tl ih =>
      obtain ⟨k0, w⟩ := hd
      by_cases hk : k0 = k
      · subst hk
        simp [ainsert, alookup, Ne.symm h]
      · by_cases hk2 : k0 = k2
        · subst hk2
          simp [ainsert, alookup, h]
        · simp [ainsert, hk, alookup, hk2, ih]

/-- C1: the claim says any structural mismatch during resolution makes
GetConfigs return a format error and never a partially populated CliConfig.
The code violates this: processProfileMap does detect the mismatch (second
conjunct: it reports the format error), but GetConfigs discards both
processors' return values (source lines 497-498) and returns a CliConfig
whose cluster fields are populated and whose credential fields are empty,
together with a nil error (first conjunct). -/
theorem claim1_resolution_error_dropped :
    GetConfigsYaml "" "" c1ClusterDoc c1ProfileDoc =
      GoResult.ok
        (({ cluster := "mycluster", region := "us-west-2", awsAccessKey := "",
            awsSecretKey := "" } : CliConfig),
         [(clusterKey, Yaml.str "mycluster"), (regionKey, Yaml.str "us-west-2")],
         none) ∧
    processProfileMap "" c1ProfileDoc [] {} =
      GoResult.ok ([], {},
        some "Format issue with profile config file; expected key not found.") :=
  ⟨rfl, rfl⟩

/-- C2 counterexample: the claim says a one-element command sequence is taken
as the literal command with no CMD-SHELL wrapping. On the code, the input
with command as the one-element sequence ["a"] (and no test field)
canonicalizes to ["CMD-SHELL", "a"], which is not ["a"]. -/
theorem claim2_counterexample :
    HealthCheck.unmarshalYAML { command := Stringorslice.seq ["a"] } =
      Except.ok { command := some ["CMD-SHELL", "a"], retries := some 3 } ∧
    (["CMD-SHELL", "a"] : List String) ≠ ["a"] :=
  ⟨rfl, by decide⟩

/-- C2 amended: whenever exactly one of the two sequence fields is present
and it has exactly one element, parsing shell-wraps that element as
["CMD-SHELL", element] — exactly as for the shorthand string shape, the two
being indistinguishable after string-or-slice unmarshalling; only sequences
of two or more elements are taken as the literal command (third
conjunct). -/
theorem claim2_one_element_always_shell_wrapped :
    (∀ (raw : RawHealthCheck) (e : String) (a b c : Option Int),
      raw.command.toStrings = [e] → raw.test.toStrings = [] →
      parseHealthCheckTimeField raw.timeout = Except.ok a →
      parseHealthCheckTimeField raw.startPeriod = Except.ok b →
      parseHealthCheckTimeField raw.interval = Except.ok c →
      HealthCheck.unmarshalYAML raw =
        Except.ok { command := some ["CMD-SHELL", e],
                    retries := some (raw.retries.getD 3),
                    timeout := a, startPeriod := b, interval := c }) ∧
    (∀ (raw : RawHealthCheck) (e : String) (a b c : Option Int),
      raw.command.toStrings = [] → raw.test.toStrings = [e] →
      parseHealthCheckTimeField raw.timeout = Except.ok a →
      parseHealthCheckTimeField raw.startPeriod = Except.ok b →
      parseHealthCheckTimeField raw.interval = Except.ok c →
      HealthCheck.unmarshalYAML raw =
        Except.ok { command := some ["CMD-SHELL", e],
                    retries := some (raw.retries.getD 3),
                    timeout := a, startPeriod := b, interval := c }) ∧
    (∀ (raw : RawHealthCheck) (xs : List String) (a b c : Option Int),
      raw.command.toStrings = xs → 2 ≤ xs.length → raw.test.toStrings = [] →
      parseHealthCheckTimeField raw.timeout = Except.ok a →
      parseHealthCheckTimeField raw.startPeriod = Except.ok b →
      parseHealthCheckTimeField raw.interval = Except.ok c →
      HealthCheck.unmarshalYAML raw =
        Except.ok { command := some xs,
                    retries := some (raw.retries.getD 3),
                    timeout := a, startPeriod := b, interval := c }) := by
  refine ⟨?_, ?_, ?_⟩
  · intro raw e a b c hcmd htst ht hsp hiv
    simp [HealthCheck.unmarshalYAML, hcmd, htst, ht, hsp, hiv,
      parseHealthCheckCommand]
  · intro raw e a b c hcmd htst ht hsp hiv
    simp [HealthCheck.unmarshalYAML, hcmd, htst, ht, hsp, hiv,
      parseHealthCheckCommand]
  · intro raw xs a b c hcmd hlen htst ht hsp hiv
    match xs, hlen with
    | x1 :: x2 :: rest, _ =>
        simp [HealthCheck.unmarshalYAML, hcmd, htst, ht, hsp, hiv,
          parseHealthCheckCommand]

/-- C2 witness: the amended theorem applied to the concrete one-element
command input. -/
theorem claim2_witness :
    HealthCheck.unmarshalYAML { command := Stringorslice.seq ["echo"] } =
      Except.ok { command := some ["CMD-SHELL", "echo"],
                  retries := some ((none : Option Int).getD 3),
                  timeout := none, startPeriod := none, interval := none } :=
  claim2_one_element_always_shell_wrapped.1
    { command := Stringorslice.seq ["echo"] } "echo" none none none
    rfl rfl rfl rfl rfl

/-- C3 counterexample: the claim says retries canonicalizes to 3 whenever the
supplied retries is absent or zero. On the code, an explicit retries of 0
overwrites the preset default during unmarshalling and the canonical retries
is 0, not 3. -/
theorem claim3_counterexample :
    HealthCheck.unmarshalYAML
        { command := Stringorslice.seq ["a", "b"], retries := some 0 } =
      Except.ok { command := some ["a", "b"], retries := some 0 } ∧
    (some (0 : Int)) ≠ some 3 :=
  ⟨rfl, by decide⟩

/-- C3 amended: the canonical retries equals 3 only when the input retries
key is absent; when the key is present — including an explicit zero — the
canonical retries equals the supplied value. -/
theorem claim3_retries_default_only_when_absent
    (raw : RawHealthCheck) (h : HealthCheck)
    (hok : HealthCheck.unmarshalYAML raw = Except.ok h) :
    h.retries = some (raw.retries.getD 3) := by
  unfold HealthCheck.unmarshalYAML at hok
  dsimp only at hok
  split at hok
  · exact absurd hok (by simp)
  · split at hok
    · exact absurd hok (by simp)
    · split at hok
      · exact absurd hok (by simp)
      · split at hok
        · exact absurd hok (by simp)
        · cases hok
          rfl

/-- C3 witness: the amended theorem applied to a concrete input with the
retries key absent, giving the default 3. -/
theorem claim3_witness :
    HealthCheck.unmarshalYAML { command := Stringorslice.seq ["a", "b"] } =
      Except.ok { command := some ["a", "b"], retries := some 3 } ∧
    ({ command := some ["a", "b"], retries := some 3 } : HealthCheck).retries =
      some ((none : Option Int).getD 3) :=
  ⟨rfl, claim3_retries_default_only_when_absent
    { command := Stringorslice.seq ["a", "b"] } _ rfl⟩

/-- C4: the claim says every error arising inside a save operation —
including a failure of the final whole-document write — aborts the
operation and is returned to the caller. The code violates this: saveToFile
does return the write error (first conjunct), but all four save operations
discard its return value (source lines 604, 626, 664, 703) and return nil
even though the write failed (remaining conjuncts). -/
theorem claim4_save_write_errors_dropped :
    saveToFile c4FailOps = some "write failure" ∧
    (SaveProfile (Except.ok c4ProfileDoc) c4FailOps
      { profileName := "p1", awsAccessKey := "AK", awsSecretKey := "SK" }).1 =
      Except.ok () ∧
    (SaveCluster (Except.ok c4ClusterDoc) c4FailOps
      { clusterName := "c1", cluster := "mycluster", region := "us-west-2" }).1 =
      Except.ok () ∧
    (SetDefaultProfile (Except.ok c4ProfileDoc) c4FailOps "p1").1 = Except.ok () ∧
    (SetDefaultCluster (Except.ok c4ClusterDoc) c4FailOps "c1").1 = Except.ok () :=
  ⟨rfl, rfl, rfl, rfl, rfl⟩

/-- C5: whenever both command and test are present as non-empty sequences,
health-check parsing fails with the conflict error and produces no canonical
HealthCheck. -/
theorem claim5_conflict_error (raw : RawHealthCheck)
    (hc : 0 < raw.command.toStrings.length)
    (ht : 0 < raw.test.toStrings.length) :
    HealthCheck.unmarshalYAML raw =
      Except.error "healthcheck.test and healthcheck.command can not both be specified" := by
  unfold HealthCheck.unmarshalYAML
  rw [if_pos ⟨hc, ht⟩]

/-- C5 witness: the conflict theorem applied to the spec's own example,
command ["a","b"] with test ["c"]. -/
theorem claim5_witness :
    0 < (Stringorslice.seq ["a", "b"]).toStrings.length ∧
    0 < (Stringorslice.seq ["c"]).toStrings.length ∧
    HealthCheck.unmarshalYAML
        { command := Stringorslice.seq ["a", "b"], test := Stringorslice.seq ["c"] } =
      Except.error "healthcheck.test and healthcheck.command can not both be specified" :=
  ⟨by decide, by decide,
    claim5_conflict_error
      { command := Stringorslice.seq ["a", "b"], test := Stringorslice.seq ["c"] }
      (by decide) (by decide)⟩

/-- C6: every non-empty time-field string is first tried as a duration and
on failure as a plain integer in seconds, failing only when both fail
(first conjunct); "1m30s" gives 90 seconds, "45" gives 45 seconds, "abc"
fails, and the empty (absent) field gives an unset value with no error
(remaining conjuncts). -/
theorem claim6_time_field_parsing :
    (∀ s : String, s ≠ "" →
      parseHealthCheckTimeField s =
        match parseDuration s with
        | some duration => Except.ok (some (ConvertToTimeInSeconds duration))
        | none =>
            match parseInt64 s with
            | some val => Except.ok (some val)
            | none =>
                Except.error ("Could not parse " ++ s ++
                  " either as an integer or a duration (ex: 1m30s)")) ∧
    parseHealthCheckTimeField "1m30s" = Except.ok (some 90) ∧
    parseHealthCheckTimeField "45" = Except.ok (some 45) ∧
    parseHealthCheckTimeField "abc" =
      Except.error "Could not parse abc either as an integer or a duration (ex: 1m30s)" ∧
    parseHealthCheckTimeField "" = Except.ok none :=
  ⟨fun s h => by
      unfold parseHealthCheckTimeField
      rw [if_pos h],
    rfl, rfl, rfl, rfl⟩

/-- C6 witness: the first conjunct applied to the concrete non-empty field
"2h". -/
theorem claim6_witness :
    parseHealthCheckTimeField "2h" =
      match parseDuration "2h" with
      | some duration => Except.ok (some (ConvertToTimeInSeconds duration))
      | none =>
          match parseInt64 "2h" with
          | some val => Except.ok (some val)
          | none =>
              Except.error ("Could not parse " ++ "2h" ++
                " either as an integer or a duration (ex: 1m30s)") :=
  claim6_time_field_parsing.1 "2h" (by decide)

/-- C7: network extraction returns ok-none when the network mode is not
awsvpc (first conjunct); under awsvpc it is a validation error exactly when
the subnet list is empty (second conjunct); otherwise the configuration
carries exactly the source's subnet and security-group lists in order, with
the public-IP assignment present iff non-empty in the source (third
conjunct). -/
theorem claim7_network_extraction :
    (∀ p : ECSParams, p.taskDefinition.networkMode ≠ "awsvpc" →
      ConvertToECSNetworkConfiguration (some p) = Except.ok none) ∧
    (∀ p : ECSParams, p.taskDefinition.networkMode = "awsvpc" →
      p.runParams.networkConfiguration.awsVpcConfiguration.subnets = [] →
      ConvertToECSNetworkConfiguration (some p) =
        Except.error "at least one subnet is required in the network configuration") ∧
    (∀ p : ECSParams, p.taskDefinition.networkMode = "awsvpc" →
      p.runParams.networkConfiguration.awsVpcConfiguration.subnets ≠ [] →
      ConvertToECSNetworkConfiguration (some p) =
        Except.ok (some { awsvpcConfiguration :=
          { subnets := p.runParams.networkConfiguration.awsVpcConfiguration.subnets
            securityGroups :=
              p.runParams.networkConfiguration.awsVpcConfiguration.securityGroups
            assignPublicIp :=
              if p.runParams.networkConfiguration.awsVpcConfiguration.assignPublicIp ≠ ""
              then some p.runParams.networkConfiguration.awsVpcConfiguration.assignPublicIp
              else none } })) := by
  refine ⟨?_, ?_, ?_⟩
  · intro p h
    simp [ConvertToECSNetworkConfiguration, h]
  · intro p h1 h2
    simp [ConvertToECSNetworkConfiguration, h1, h2]
  · intro p h1 h2
    simp [ConvertToECSNetworkConfiguration, h1, Nat.lt_one_iff,
      List.length_eq_zero, h2]

/-- C7 witness: the awsvpc branch applied to the spec's example, subnets
["subnet-1"] with security groups ["sg-1", "sg-2"]; the resulting
configuration carries exactly those lists and no public-IP field. -/
theorem claim7_witness :
    ConvertToECSNetworkConfiguration (some c7Demo) =
      Except.ok (some { awsvpcConfiguration :=
        { subnets := ["subnet-1"], securityGroups := ["sg-1", "sg-2"],
          assignPublicIp := none } }) :=
  claim7_network_extraction.2.2 c7Demo rfl (by decide)

/-- C8: each save operation, on a document whose container mapping is
well-shaped, writes a document in which the named entry is inserted or
overwritten (lookups: the new entry is found under its name and every other
name is unchanged) and whose "default" pointer is the new entry's name iff
the container mapping was empty before the insertion, an existing default
being left unchanged otherwise. First conjunct SaveProfile, second
SaveCluster. -/
theorem claim8_save_insert_and_default_rule :
    (∀ (profileMap profiles : List (String × Yaml)) (ops : FileOps)
      (p : ProfileConfiguration),
      alookup profileMap "ecs_profiles" = some (Yaml.map profiles) →
      ∃ doc,
        SaveProfile (Except.ok profileMap) ops p = (Except.ok (), some doc) ∧
        ∃ newProfiles,
          alookup doc "ecs_profiles" = some (Yaml.map newProfiles) ∧
          alookup newProfiles p.profileName =
            some (Yaml.map [(awsAccessKeyKey, Yaml.str p.awsAccessKey),
                            (awsSecretKeyKey, Yaml.str p.awsSecretKey)]) ∧
          (∀ k, k ≠ p.profileName → alookup newProfiles k = alookup profiles k) ∧
          alookup doc "default" =
            (if profiles.length = 0 then some (Yaml.str p.profileName)
             else alookup profileMap "default")) ∧
    (∀ (clusterMap clusters : List (String × Yaml)) (ops : FileOps)
      (c : ClusterConfiguration),
      alookup clusterMap "clusters" = some (Yaml.map clusters) →
      ∃ doc,
        SaveCluster (Except.ok clusterMap) ops c = (Except.ok (), some doc) ∧
        ∃ newClusters,
          alookup doc "clusters" = some (Yaml.map newClusters) ∧
          alookup newClusters c.clusterName =
            some (Yaml.map [(clusterKey, Yaml.str c.cluster),
                            (regionKey, Yaml.str c.region)]) ∧
          (∀ k, k ≠ c.clusterName → alookup newClusters k = alookup clusters k) ∧
          alookup doc "default" =
            (if clusters.length = 0 then some (Yaml.str c.clusterName)
             else alookup clusterMap "default")) := by
  constructor
  · intro profileMap profiles ops p h
    have hstep : SaveProfile (Except.ok profileMap) ops p =
        (Except.ok (), some (ainsert
          (if profiles.length = 0 then
            ainsert profileMap "default" (Yaml.str p.profileName)
          else profileMap) "ecs_profiles"
          (Yaml.map (ainsert profiles p.profileName
            (Yaml.map [(awsAccessKeyKey, Yaml.str p.awsAccessKey),
                       (awsSecretKeyKey, Yaml.str p.awsSecretKey)]))))) := by
      simp only [SaveProfile]
      rw [h]
      rfl
    refine ⟨_, hstep, ainsert profiles p.profileName
      (Yaml.map [(awsAccessKeyKey, Yaml.str p.awsAccessKey),
                 (awsSecretKeyKey, Yaml.str p.awsSecretKey)]), ?_, ?_, ?_, ?_⟩
    · exact alookup_ainsert_self _ "ecs_profiles" _
    · exact alookup_ainsert_self profiles p.profileName _
    · intro k hk
      exact alookup_ainsert_ne profiles p.profileName k _ hk
    · by_cases hp : profiles.length = 0
      · simp [hp, alookup_ainsert_ne _ "ecs_profiles" "default" _ (by decide),
          alookup_ainsert_self]
      · simp [hp, alookup_ainsert_ne _ "ecs_profiles" "default" _ (by decide)]
  · intro clusterMap clusters ops c h
    have hstep : SaveCluster (Except.ok clusterMap) ops c =
        (Except.ok (), some (ainsert
          (if clusters.length = 0 then
            ainsert clusterMap "default" (Yaml.str c.clusterName)
          else clusterMap) "clusters"
          (Yaml.map (ainsert clusters c.clusterName
            (Yaml.map [(clusterKey, Yaml.str c.cluster),
                       (regionKey, Yaml.str c.region)]))))) := by
      simp only [SaveCluster]
      rw [h]
      rfl
    refine ⟨_, hstep, ainsert clusters c.clusterName
      (Yaml.map [(clusterKey, Yaml.str c.cluster),
                 (regionKey, Yaml.str c.region)]), ?_, ?_, ?_, ?_⟩
    · exact alookup_ainsert_self _ "clusters" _
    · exact alookup_ainsert_self clusters c.clusterName _
    · intro k hk
      exact alookup_ainsert_ne clusters c.clusterName k _ hk
    · by_cases hp : clusters.length = 0
      · simp [hp, alookup_ainsert_ne _ "clusters" "default" _ (by decide),
          alookup_ainsert_self]
      · simp [hp, alookup_ainsert_ne _ "clusters" "default" _ (by decide)]

/-- C8 witness: the SaveProfile conjunct applied to a document with an empty
ecs_profiles mapping, so the first entry becomes the default. -/
theorem claim8_witness :
    ∃ doc,
      SaveProfile (Except.ok [("ecs_profiles", Yaml.map [])]) {}
          { profileName := "p1", awsAccessKey := "AK", awsSecretKey := "SK" } =
        (Except.ok (), some doc) ∧
      ∃ newProfiles,
        alookup doc "ecs_profiles" = some (Yaml.map newProfiles) ∧
        alookup newProfiles "p1" =
          some (Yaml.map [(awsAccessKeyKey, Yaml.str "AK"),
                          (awsSecretKeyKey, Yaml.str "SK")]) ∧
        (∀ k, k ≠ "p1" →
          alookup newProfiles k = alookup ([] : List (String × Yaml)) k) ∧
        alookup doc "default" =
          (if ([] : List (String × Yaml)).length = 0 then some (Yaml.str "p1")
           else alookup [("ecs_profiles", Yaml.map [])] "default") :=
  claim8_save_insert_and_default_rule.1 [("ecs_profiles", Yaml.map [])] [] {}
    { profileName := "p1", awsAccessKey := "AK", awsSecretKey := "SK" } rfl

/-- C9: calling the task-parameter loader with an empty path when the fixed
default file ecs-params.yml does not stat in the working directory returns
no document and no error, for every parser, environment expansion and file
system. -/
theorem claim9_absent_default_params_file
    (parse : String → Except String ECSParams) (expandEnv : String → String)
    (fs : FileSystem) (h : fs.statOk "ecs-params.yml" = false) :
    ReadECSParams parse expandEnv fs "" = Except.ok none := by
  simp [ReadECSParams, h]

/-- C9 witness: the theorem applied to the empty file system. -/
theorem claim9_witness :
    (FileSystem.statOk {} "ecs-params.yml" = false) ∧
    ReadECSParams (fun _ => Except.error "unused") (fun s => s) {} "" =
      Except.ok none :=
  ⟨rfl, claim9_absent_default_params_file (fun _ => Except.error "unused")
    (fun s => s) {} rfl⟩

/-- C10: when the input ECSParams pointer is nil, network-configuration
extraction returns no configuration and no error. -/
theorem claim10_nil_params_returns_none :
    ConvertToECSNetworkConfiguration none = Except.ok none := rfl
